import Mathlib

/-!
Verification of the poll core of `game-night-decider`.

The definitions below shallowly embed `src/core/poll_service.py`.  The vote
store, the session table and the collection table are modelled as explicit
lists that every operation takes and returns; Python `None` becomes `Option`,
machine integers become `Int` (no arithmetic in the service overflows), and
the SQLAlchemy queries become list filters over those explicit stores.

`random.choice` is modelled by an explicit selection oracle
`pick : Nat → List Game → Game`: the `Nat` argument counts how many random
draws happened earlier in the same call, so distinct draws may disagree even
on equal lists, exactly like a stateful RNG.  Theorems that need the oracle
to behave like `random.choice` assume `∀ n l, l ≠ [] → pick n l ∈ l`.

`src/core/logic.py` and `src/core/models.py` are not among the sources; the
handful of names imported from them (`VoteType`, `VoteLimit`, `GameState`,
`group_games_by_complexity`, `calculate_poll_winner`) are modelled from the
specification, each marked `Modelled from the spec:` in its doc comment.
-/

namespace GameNight

/-- Modelled from the spec: `VoteType` lives in `src/core/models.py`, which is
not among the sources.  The spec's data model says the vote kind is
GAME or CATEGORY. -/
inductive VoteType where
  | GAME
  | CATEGORY
deriving DecidableEq, Repr

/-- Modelled from the spec: the `VoteLimit` constants live in
`src/core/models.py`, which is not among the sources.  The spec says the
vote-limit configuration is one of a fixed integer, UNLIMITED, or AUTO, so the
sentinel comparisons of `calculate_effective_limit` become constructors. -/
inductive VoteLimit where
  | AUTO
  | UNLIMITED
  | fixed (n : Int)
deriving DecidableEq, Repr

/-- Modelled from the spec: `GameState` lives in `src/core/models.py`, which is
not among the sources.  Only the STARRED state is inspected by the service
(`build_star_collections`); every other state is collapsed into `OTHER`. -/
inductive GameState where
  | STARRED
  | OTHER
deriving DecidableEq, Repr

/-- A candidate game: identifier, display name and complexity level
(the spec's data model, §3). -/
structure Game where
  id : Int
  name : String
  complexity : Int
deriving DecidableEq, Repr

/-- A row of the `PollVote` table.  `game_id` is set for GAME votes,
`category_level` for CATEGORY votes (`cast_vote` sets exactly one of them). -/
structure PollVote where
  poll_id : String
  user_id : Int
  vote_type : VoteType
  game_id : Option Int := none
  category_level : Option Int := none
  user_name : String
deriving DecidableEq, Repr

/-- `VoteResult` dataclass of `poll_service.py`. -/
structure VoteResult where
  success : Bool
  message : String
  is_removal : Bool := false
deriving DecidableEq, Repr

/-- The `ResolvedVote` namedtuple: `game_id` stays optional because GAME votes
are passed through with whatever `game_id` the row holds. -/
structure ResolvedVote where
  game_id : Option Int
  user_id : Int
deriving DecidableEq, Repr

/-- A row of the `Session` table, reduced to the two fields `close_poll`
reads: the chat id used as primary key and the `settings_weighted` flag. -/
structure SessionRec where
  chat_id : Int
  settings_weighted : Bool
deriving DecidableEq, Repr

/-- A row of the `Collection` table, reduced to the fields
`build_star_collections` queries. -/
structure CollectionRec where
  user_id : Int
  game_id : Int
  state : GameState
deriving DecidableEq, Repr

/-- `ceil(log2 n)` of `calculate_effective_limit`, for `n ≥ 1`:
`Nat.clog 2` is the ceiling base-2 logarithm. -/
def ceilLog2 (n : Int) : Int :=
  ((Nat.clog 2 n.toNat : Nat) : Int)

/-- `PollService.calculate_effective_limit`: AUTO scales with the game count,
UNLIMITED means no cap (`none`), anything else is returned unchanged. -/
def calculate_effective_limit (vote_limit : VoteLimit) (game_count : Int) :
    Option Int :=
  match vote_limit with
  | VoteLimit.AUTO =>
      if game_count ≤ 0 then some 3
      else some (max 3 (ceilLog2 game_count))
  | VoteLimit.UNLIMITED => none
  | VoteLimit.fixed n => some n

/-- The WHERE clause of the existing-vote lookup in `cast_vote`: same poll,
same user, same vote type, and the type-specific target column equal to the
target. -/
def vote_matches (poll_id : String) (user_id : Int) (vote_type : VoteType)
    (target_id : Int) (v : PollVote) : Bool :=
  v.poll_id == poll_id && v.user_id == user_id && v.vote_type == vote_type &&
    (match vote_type with
     | VoteType.GAME => v.game_id == some target_id
     | VoteType.CATEGORY => v.category_level == some target_id)

/-- The user's current vote count for the poll: `count(*)` over rows matching
poll and user, both vote kinds included. -/
def user_vote_count (store : List PollVote) (poll_id : String)
    (user_id : Int) : Nat :=
  (store.filter (fun v => v.poll_id == poll_id && v.user_id == user_id)).length

/-- The failure message of the limit branch of `cast_vote`. -/
def limit_message (cnt : Nat) (lim : Int) : String :=
  s!"Vote limit reached ({cnt}/{lim}). Remove a vote first!"

/-- The fresh `PollVote` row `cast_vote` inserts: `game_id` set for GAME
votes, `category_level` for CATEGORY votes. -/
def new_vote (poll_id : String) (user_id : Int) (target_id : Int)
    (vote_type : VoteType) (user_name : String) : PollVote :=
  { poll_id := poll_id
    user_id := user_id
    vote_type := vote_type
    game_id := match vote_type with
      | VoteType.GAME => some target_id
      | VoteType.CATEGORY => none
    category_level := match vote_type with
      | VoteType.GAME => none
      | VoteType.CATEGORY => some target_id
    user_name := user_name }

/-- The success message of the insert branch of `cast_vote`. -/
def insert_message (vote_type : VoteType) (target_id : Int) : String :=
  match vote_type with
  | VoteType.CATEGORY => s!"🎲 Voted on Category {target_id}!"
  | VoteType.GAME => "Vote recorded"

/-- `PollService.cast_vote`.  The store is passed and returned explicitly;
the result is `none` when `scalar_one_or_none` would raise (two or more rows
match, which the uniqueness invariant forbids).  An existing matching vote is
toggled off; otherwise the effective limit is checked before inserting. -/
def cast_vote (store : List PollVote) (poll_id : String) (user_id : Int)
    (target_id : Int) (vote_type : VoteType) (user_name : String)
    (vote_limit : VoteLimit) (game_count : Int) :
    Option (List PollVote × VoteResult) :=
  match store.filter (vote_matches poll_id user_id vote_type target_id) with
  | [existing_vote] =>
      some (store.erase existing_vote,
        { success := true, message := "Vote removed", is_removal := true })
  | [] =>
      let insert :=
        (store ++ [new_vote poll_id user_id target_id vote_type user_name],
         { success := true, message := insert_message vote_type target_id,
           is_removal := false : VoteResult })
      match calculate_effective_limit vote_limit game_count with
      | some lim =>
          let cnt := user_vote_count store poll_id user_id
          if lim ≤ (cnt : Int) then
            some (store,
              { success := false, message := limit_message cnt lim,
                is_removal := false })
          else some insert
      | none => some insert
  | _ => none

/-- Modelled from the spec: `group_games_by_complexity` lives in
`src/core/logic.py`, which is not among the sources.  Spec §4.3 step 1
partitions the candidate games into groups keyed by complexity level; this is
the lookup `groups.get(level, [])` of one group, where a missing key (in
particular a vote row whose level is `none`) yields the empty group. -/
def group_games_by_complexity (valid_games : List Game) (level : Option Int) :
    List Game :=
  match level with
  | some l => valid_games.filter (fun g => g.complexity == l)
  | none => []

/-- The first loop of `resolve_category_votes`: walk the votes and build the
`category_resolutions` map (an association list keyed by category level).  A
level is resolved at most once; `pick` stands for `random.choice` and `n`
counts the draws made so far. -/
def category_resolutions (pick : Nat → List Game → Game) :
    List PollVote → List Game → List (Option Int × Game) → Nat →
    List (Option Int × Game)
  | [], _, acc, _ => acc
  | v :: vs, games, acc, n =>
      match v.vote_type with
      | VoteType.CATEGORY =>
          match List.lookup v.category_level acc with
          | some _ => category_resolutions pick vs games acc n
          | none =>
              let target_group := group_games_by_complexity games v.category_level
              if target_group.isEmpty then
                category_resolutions pick vs games acc n
              else
                category_resolutions pick vs games
                  (acc ++ [(v.category_level, pick n target_group)]) (n + 1)
      | VoteType.GAME => category_resolutions pick vs games acc n

/-- One step of the second loop of `resolve_category_votes`: a CATEGORY vote
resolves through the `category_resolutions` map (dropped when its level is
absent), a GAME vote passes through unchanged. -/
def resolve_one (resolutions : List (Option Int × Game)) (v : PollVote) :
    Option ResolvedVote :=
  match v.vote_type with
  | VoteType.CATEGORY =>
      (List.lookup v.category_level resolutions).map
        (fun g => { game_id := some g.id, user_id := v.user_id })
  | VoteType.GAME => some { game_id := v.game_id, user_id := v.user_id }

/-- `PollService.resolve_category_votes`: resolve every category level once,
then flatten all votes through the resolution map. -/
def resolve_category_votes (pick : Nat → List Game → Game)
    (all_votes : List PollVote) (valid_games : List Game) :
    List ResolvedVote :=
  all_votes.filterMap
    (resolve_one (category_resolutions pick all_votes valid_games [] 0))

/-- `PollService.get_votes_for_poll`: all rows of the vote store for the
poll. -/
def get_votes_for_poll (votes_db : List PollVote) (poll_id : String) :
    List PollVote :=
  votes_db.filter (fun v => v.poll_id == poll_id)

/-- `PollService.build_star_collections`: for each candidate game in the
priority set, the users whose collection holds the game as STARRED. -/
def build_star_collections (collections_db : List CollectionRec)
    (valid_games : List Game) (priority_ids : List Int) :
    List (Int × List Int) :=
  valid_games.filterMap (fun g =>
    if priority_ids.contains g.id then
      some (g.id,
        (collections_db.filter (fun c =>
          c.game_id == g.id && c.state == GameState.STARRED)).map
          (fun c => c.user_id))
    else none)

/-- The number of distinct voters among the resolved votes, handed to the
bonus policy as its `totalVoters` input. -/
def total_voters (resolved_votes : List ResolvedVote) : Nat :=
  ((resolved_votes.map (fun r => r.user_id)).dedup).length

/-- The raw score of a game: the count of resolved votes referencing it
(spec §4.4 step 4). -/
def raw_score (resolved_votes : List ResolvedVote) (g : Game) : ℚ :=
  ((resolved_votes.filter (fun r => r.game_id == some g.id)).length : ℚ)

/-- Modelled from the spec: the final score a game receives inside
`calculate_poll_winner` (`src/core/logic.py`, not among the sources).
Spec §4.4 step 5: when weighted mode is on, each game in the priority set has
its raw score adjusted by the external bonus policy — a black box taking the
raw score, the starring users and the total voter count and returning the
adjusted score (first component) and a log line; non-priority games keep
their raw score. -/
def final_score (policy : ℚ → List Int → Nat → ℚ × String)
    (resolved_votes : List ResolvedVote) (priority_ids : List Int)
    (is_weighted : Bool) (star_collections : List (Int × List Int))
    (g : Game) : ℚ :=
  if is_weighted && priority_ids.contains g.id then
    (policy (raw_score resolved_votes g)
      ((List.lookup g.id star_collections).getD [])
      (total_voters resolved_votes)).1
  else raw_score resolved_votes g

/-- The maximum of the final scores over the candidate list (`none` when the
list is empty). -/
def max_final_score (fs : Game → ℚ) : List Game → Option ℚ
  | [] => none
  | g :: gs =>
      match max_final_score fs gs with
      | none => some (fs g)
      | some m => some (max (fs g) m)

/-- Modelled from the spec: `calculate_poll_winner` lives in
`src/core/logic.py`, which is not among the sources.  Spec §4.4: score every
candidate (raw count, adjusted by the bonus policy for weighted priority
games), return the names of every game achieving the maximum final score, the
score map over the candidates, and the policy's log lines for the weighted
priority games. -/
def calculate_poll_winner (policy : ℚ → List Int → Nat → ℚ × String)
    (valid_games : List Game) (resolved_votes : List ResolvedVote)
    (priority_ids : List Int) (is_weighted : Bool)
    (star_collections : Option (List (Int × List Int))) :
    List String × List (Int × ℚ) × List String :=
  let sc := star_collections.getD []
  let fs := final_score policy resolved_votes priority_ids is_weighted sc
  let winners :=
    match max_final_score fs valid_games with
    | none => []
    | some m => (valid_games.filter (fun g => decide (fs g = m))).map
        (fun g => g.name)
  let scores := valid_games.map (fun g => (g.id, fs g))
  let modifiers_log :=
    if is_weighted then
      valid_games.filterMap (fun g =>
        if priority_ids.contains g.id then
          some (policy (raw_score resolved_votes g)
            ((List.lookup g.id sc).getD []) (total_voters resolved_votes)).2
        else none)
    else []
  (winners, scores, modifiers_log)

/-- The weighted-mode lookup of `close_poll`: the chat's session row is
fetched by primary key and its `settings_weighted` flag read; a missing row
defaults to non-weighted. -/
def poll_is_weighted (sessions_db : List SessionRec) (chat_id : Int) : Bool :=
  match sessions_db.find? (fun s => s.chat_id == chat_id) with
  | some s => s.settings_weighted
  | none => false

/-- `PollService.close_poll`: fetch the poll's votes, resolve categories,
read the weighted flag from the chat's session row (off when the row is
missing), build the star collections when weighted, and score. -/
def close_poll (policy : ℚ → List Int → Nat → ℚ × String)
    (pick : Nat → List Game → Game) (votes_db : List PollVote)
    (sessions_db : List SessionRec) (collections_db : List CollectionRec)
    (poll_id : String) (chat_id : Int) (valid_games : List Game)
    (priority_ids : List Int) :
    List String × List (Int × ℚ) × List String :=
  let all_votes := get_votes_for_poll votes_db poll_id
  let resolved_votes := resolve_category_votes pick all_votes valid_games
  let is_weighted := poll_is_weighted sessions_db chat_id
  let star_collections :=
    if is_weighted then
      some (build_star_collections collections_db valid_games priority_ids)
    else none
  calculate_poll_winner policy valid_games resolved_votes priority_ids
    is_weighted star_collections

/-- The final score each candidate receives inside a given `close_poll`
call: `final_score` applied to exactly the resolved votes, weighted flag and
star collections that `close_poll` hands to `calculate_poll_winner`. -/
def close_poll_final_score (policy : ℚ → List Int → Nat → ℚ × String)
    (pick : Nat → List Game → Game) (votes_db : List PollVote)
    (sessions_db : List SessionRec) (collections_db : List CollectionRec)
    (poll_id : String) (chat_id : Int) (valid_games : List Game)
    (priority_ids : List Int) : Game → ℚ :=
  final_score policy
    (resolve_category_votes pick (get_votes_for_poll votes_db poll_id)
      valid_games)
    priority_ids (poll_is_weighted sessions_db chat_id)
    ((if poll_is_weighted sessions_db chat_id then
        some (build_star_collections collections_db valid_games priority_ids)
      else none).getD [])

/-! ### Vote limiter (claims C8, C9) -/

/-- C8: `calculate_effective_limit` returns 3 for AUTO with a non-positive
candidate count and `max 3 ⌈log2 count⌉` for a positive one (the fourth
conjunct characterises `ceilLog2` as the ceiling base-2 logarithm), `none`
(unlimited) for UNLIMITED, and a fixed configuration unchanged; as a Lean
function it is pure by construction. -/
theorem calculate_effective_limit_spec :
    (∀ gc : Int, gc ≤ 0 →
      calculate_effective_limit VoteLimit.AUTO gc = some 3) ∧
    (∀ gc : Int, 0 < gc →
      calculate_effective_limit VoteLimit.AUTO gc
        = some (max 3 (ceilLog2 gc)) ∧
      ∀ k : ℕ, gc ≤ 2 ^ k ↔ ceilLog2 gc ≤ (k : Int)) ∧
    (∀ gc : Int, calculate_effective_limit VoteLimit.UNLIMITED gc = none) ∧
    (∀ gc n : Int, calculate_effective_limit (VoteLimit.fixed n) gc = some n) := by
  refine ⟨?_, ?_, ?_, ?_⟩
  · intro gc h
    simp [calculate_effective_limit, h]
  · intro gc h
    refine ⟨by simp [calculate_effective_limit, not_le.mpr h], ?_⟩
    intro k
    have h1 : gc.toNat ≤ 2 ^ k ↔ Nat.clog 2 gc.toNat ≤ k :=
      @Nat.le_pow_iff_clog_le 2 one_lt_two gc.toNat k
    have hcast : ((2 ^ k : ℕ) : ℤ) = 2 ^ k := by push_cast; ring
    unfold ceilLog2
    constructor
    · intro hle
      have h2 : gc.toNat ≤ 2 ^ k := by rw [Int.toNat_le, hcast]; exact hle
      exact_mod_cast h1.mp h2
    · intro hle
      have h3 : Nat.clog 2 gc.toNat ≤ k := by exact_mod_cast hle
      have h2 := h1.mpr h3
      rw [Int.toNat_le, hcast] at h2
      exact h2
  · intro gc
    simp [calculate_effective_limit]
  · intro gc n
    simp [calculate_effective_limit]

/-- Witness for C8 at concrete inputs. -/
theorem calculate_effective_limit_spec_witness :
    calculate_effective_limit VoteLimit.AUTO 0 = some 3 ∧
    calculate_effective_limit VoteLimit.AUTO 5 = some (max 3 (ceilLog2 5)) ∧
    ((5:Int) ≤ 2 ^ 3 ↔ ceilLog2 5 ≤ (3:Int)) :=
  ⟨calculate_effective_limit_spec.1 0 (by decide),
   (calculate_effective_limit_spec.2.1 5 (by decide)).1,
   (calculate_effective_limit_spec.2.1 5 (by decide)).2 3⟩

/-- C9: the AUTO limit is monotonically non-decreasing in the candidate
count and is always at least 3. -/
theorem auto_limit_monotone_and_floored :
    (∀ n m a b : Int, n ≤ m →
      calculate_effective_limit VoteLimit.AUTO n = some a →
      calculate_effective_limit VoteLimit.AUTO m = some b → a ≤ b) ∧
    (∀ n a : Int, calculate_effective_limit VoteLimit.AUTO n = some a →
      3 ≤ a) := by
  constructor
  · intro n m a b hnm ha hb
    by_cases hn : n ≤ 0
    · simp [calculate_effective_limit, hn] at ha
      by_cases hm : m ≤ 0
      · simp [calculate_effective_limit, hm] at hb
        omega
      · simp [calculate_effective_limit, hm] at hb
        have : (3:Int) ≤ b := hb ▸ le_max_left 3 (ceilLog2 m)
        omega
    · have hm : ¬ m ≤ 0 := by omega
      simp [calculate_effective_limit, hn] at ha
      simp [calculate_effective_limit, hm] at hb
      have hmono : ceilLog2 n ≤ ceilLog2 m := by
        unfold ceilLog2
        have := Nat.clog_mono_right 2 (Int.toNat_le_toNat hnm)
        exact_mod_cast this
      calc a = max 3 (ceilLog2 n) := ha.symm
        _ ≤ max 3 (ceilLog2 m) := max_le_max le_rfl hmono
        _ = b := hb
  · intro n a ha
    by_cases hn : n ≤ 0
    · simp [calculate_effective_limit, hn] at ha
      omega
    · simp [calculate_effective_limit, hn] at ha
      have : (3:Int) ≤ a := ha ▸ le_max_left 3 (ceilLog2 n)
      omega

/-- Witness for C9: the AUTO limit at 2 games is 3, at 100 games it is 7. -/
theorem auto_limit_monotone_and_floored_witness :
    (3:Int) ≤ 7 ∧ (3:Int) ≤ 7 := by
  have hc2 : ceilLog2 2 = 1 := by
    unfold ceilLog2
    rw [show Int.toNat 2 = 2 from rfl]
    simp [Nat.clog]
  have hc100 : ceilLog2 100 = 7 := by
    unfold ceilLog2
    rw [show Int.toNat 100 = 100 from rfl]
    simp [Nat.clog]
  have h2 : calculate_effective_limit VoteLimit.AUTO 2 = some 3 := by
    simp [calculate_effective_limit, hc2]
  have h100 : calculate_effective_limit VoteLimit.AUTO 100 = some 7 := by
    simp [calculate_effective_limit, hc100]
  exact ⟨auto_limit_monotone_and_floored.1 2 100 3 7 (by norm_num) h2 h100,
    auto_limit_monotone_and_floored.2 100 7 h100⟩

/-! ### Vote casting (claims C3, C4, C6, C10) -/

/-- The row `cast_vote` inserts matches its own lookup predicate. -/
theorem vote_matches_new_vote (poll_id : String) (user_id target_id : Int)
    (vote_type : VoteType) (user_name : String) :
    vote_matches poll_id user_id vote_type target_id
      (new_vote poll_id user_id target_id vote_type user_name) = true := by
  cases vote_type <;> simp [vote_matches, new_vote]

/-- Inserting the fresh row raises the user's vote count for the poll by
one. -/
theorem user_vote_count_append_new (store : List PollVote) (poll_id : String)
    (user_id target_id : Int) (vote_type : VoteType) (user_name : String) :
    user_vote_count
        (store ++ [new_vote poll_id user_id target_id vote_type user_name])
        poll_id user_id
      = user_vote_count store poll_id user_id + 1 := by
  simp [user_vote_count, List.filter_append, new_vote]

/-- `cast_vote` on a store whose lookup finds exactly one row deletes that
row and reports a removal. -/
theorem cast_vote_found_eq (store : List PollVote) (poll_id : String)
    (user_id target_id : Int) (vote_type : VoteType) (user_name : String)
    (vote_limit : VoteLimit) (game_count : Int) (v : PollVote)
    (hv : store.filter (vote_matches poll_id user_id vote_type target_id)
      = [v]) :
    cast_vote store poll_id user_id target_id vote_type user_name vote_limit
        game_count
      = some (store.erase v,
          { success := true, message := "Vote removed", is_removal := true }) := by
  unfold cast_vote
  rw [hv]

/-- `cast_vote` on a store with no matching row and the user at or over a
finite limit fails, reporting the count and the limit, and returns the store
unchanged. -/
theorem cast_vote_limit_eq (store : List PollVote) (poll_id : String)
    (user_id target_id : Int) (vote_type : VoteType) (user_name : String)
    (vote_limit : VoteLimit) (game_count lim : Int)
    (hno : store.filter (vote_matches poll_id user_id vote_type target_id)
      = [])
    (hlim : calculate_effective_limit vote_limit game_count = some lim)
    (hcnt : lim ≤ (user_vote_count store poll_id user_id : Int)) :
    cast_vote store poll_id user_id target_id vote_type user_name vote_limit
        game_count
      = some (store,
          { success := false,
            message := limit_message (user_vote_count store poll_id user_id) lim,
            is_removal := false }) := by
  unfold cast_vote
  rw [hno]
  simp [hlim, hcnt]

/-- `cast_vote` on a store with no matching row and the limit not reached
(or unlimited) appends the fresh row. -/
theorem cast_vote_insert_eq (store : List PollVote) (poll_id : String)
    (user_id target_id : Int) (vote_type : VoteType) (user_name : String)
    (vote_limit : VoteLimit) (game_count : Int)
    (hno : store.filter (vote_matches poll_id user_id vote_type target_id)
      = [])
    (hok : ∀ lim, calculate_effective_limit vote_limit game_count = some lim →
      (user_vote_count store poll_id user_id : Int) < lim) :
    cast_vote store poll_id user_id target_id vote_type user_name vote_limit
        game_count
      = some (store ++ [new_vote poll_id user_id target_id vote_type user_name],
          { success := true, message := insert_message vote_type target_id,
            is_removal := false }) := by
  unfold cast_vote
  rw [hno]
  cases hlim : calculate_effective_limit vote_limit game_count with
  | none => simp
  | some lim =>
      have := hok lim hlim
      simp [not_le.mpr this]

/-- A row matching the lookup predicate is absent from a store whose filter
by that predicate is empty. -/
theorem not_mem_of_filter_nil {store : List PollVote} {p : PollVote → Bool}
    (hno : store.filter p = []) {v : PollVote} (hv : p v = true) :
    v ∉ store := by
  intro hmem
  have : v ∈ store.filter p := List.mem_filter.mpr ⟨hmem, hv⟩
  rw [hno] at this
  exact absurd this (List.not_mem_nil v)

/-- C3: when no matching vote exists, the effective limit is finite, and the
user's total vote count for the poll (both kinds together) is at least that
limit, `cast_vote` returns a failed `VoteResult` whose message reports the
current count and the limit, and the store comes back unchanged — nothing is
inserted or deleted. -/
theorem cast_vote_limit_exceeded (store : List PollVote) (poll_id : String)
    (user_id target_id : Int) (vote_type : VoteType) (user_name : String)
    (vote_limit : VoteLimit) (game_count lim : Int)
    (hno : store.filter (vote_matches poll_id user_id vote_type target_id)
      = [])
    (hlim : calculate_effective_limit vote_limit game_count = some lim)
    (hcnt : lim ≤ (user_vote_count store poll_id user_id : Int)) :
    cast_vote store poll_id user_id target_id vote_type user_name vote_limit
        game_count
      = some (store,
          { success := false,
            message := limit_message (user_vote_count store poll_id user_id) lim,
            is_removal := false }) :=
  cast_vote_limit_eq store poll_id user_id target_id vote_type user_name
    vote_limit game_count lim hno hlim hcnt

/-- Witness for C3: a user holding one vote under a fixed limit of 1 cannot
cast a second one, and the store is untouched. -/
theorem cast_vote_limit_exceeded_witness :
    cast_vote
        [{ poll_id := "p", user_id := 1, vote_type := VoteType.GAME,
           game_id := some 5, category_level := none, user_name := "u" }]
        "p" 1 6 VoteType.GAME "u" (VoteLimit.fixed 1) 3
      = some
          ([{ poll_id := "p", user_id := 1, vote_type := VoteType.GAME,
              game_id := some 5, category_level := none, user_name := "u" }],
           { success := false, message := limit_message 1 1,
             is_removal := false }) := by
  have h := cast_vote_limit_exceeded
    [{ poll_id := "p", user_id := 1, vote_type := VoteType.GAME,
       game_id := some 5, category_level := none, user_name := "u" }]
    "p" 1 6 VoteType.GAME "u" (VoteLimit.fixed 1) 3 1
    (by decide) (by decide) (by decide)
  simpa using h

/-- C4: on a store holding a matching vote, `cast_vote` deletes it and
returns success with `is_removal = true`; consequently, starting from a
store without the vote and with room under the limit, three successive casts
of the same vote insert the row, remove it, and insert it again. -/
theorem cast_vote_toggle_semantics (store : List PollVote) (poll_id : String)
    (user_id target_id : Int) (vote_type : VoteType) (user_name : String)
    (vote_limit : VoteLimit) (game_count : Int) :
    (∀ v, store.filter (vote_matches poll_id user_id vote_type target_id)
        = [v] →
      cast_vote store poll_id user_id target_id vote_type user_name
          vote_limit game_count
        = some (store.erase v,
            { success := true, message := "Vote removed",
              is_removal := true })) ∧
    (store.filter (vote_matches poll_id user_id vote_type target_id) = [] →
      (∀ lim, calculate_effective_limit vote_limit game_count = some lim →
        (user_vote_count store poll_id user_id : Int) < lim) →
      cast_vote store poll_id user_id target_id vote_type user_name
          vote_limit game_count
        = some
            (store ++ [new_vote poll_id user_id target_id vote_type user_name],
             { success := true, message := insert_message vote_type target_id,
               is_removal := false }) ∧
      cast_vote
          (store ++ [new_vote poll_id user_id target_id vote_type user_name])
          poll_id user_id target_id vote_type user_name vote_limit game_count
        = some (store,
            { success := true, message := "Vote removed",
              is_removal := true }) ∧
      cast_vote store poll_id user_id target_id vote_type user_name
          vote_limit game_count
        = some
            (store ++ [new_vote poll_id user_id target_id vote_type user_name],
             { success := true, message := insert_message vote_type target_id,
               is_removal := false })) := by
  constructor
  · intro v hv
    exact cast_vote_found_eq store poll_id user_id target_id vote_type
      user_name vote_limit game_count v hv
  · intro hno hok
    have hins := cast_vote_insert_eq store poll_id user_id target_id vote_type
      user_name vote_limit game_count hno hok
    have hmatch := vote_matches_new_vote poll_id user_id target_id vote_type
      user_name
    have hnotmem : new_vote poll_id user_id target_id vote_type user_name
        ∉ store := not_mem_of_filter_nil hno hmatch
    have hfilter :
        (store ++ [new_vote poll_id user_id target_id vote_type user_name]).filter
            (vote_matches poll_id user_id vote_type target_id)
          = [new_vote poll_id user_id target_id vote_type user_name] := by
      rw [List.filter_append, hno]
      simp [hmatch]
    have hrem := cast_vote_found_eq
      (store ++ [new_vote poll_id user_id target_id vote_type user_name])
      poll_id user_id target_id vote_type user_name vote_limit game_count
      (new_vote poll_id user_id target_id vote_type user_name) hfilter
    have herase :
        (store ++ [new_vote poll_id user_id target_id vote_type user_name]).erase
            (new_vote poll_id user_id target_id vote_type user_name)
          = store := by
      rw [List.erase_append_right _ hnotmem, List.erase_cons_head,
        List.append_nil]
    rw [herase] at hrem
    exact ⟨hins, hrem, hins⟩

/-- Witness for C4: on an empty store the same GAME vote inserts, then
removes, then re-inserts. -/
theorem cast_vote_toggle_semantics_witness :
    cast_vote [] "p" 1 5 VoteType.GAME "u" (VoteLimit.fixed 3) 0
      = some ([new_vote "p" 1 5 VoteType.GAME "u"],
          { success := true, message := insert_message VoteType.GAME 5,
            is_removal := false }) ∧
    cast_vote [new_vote "p" 1 5 VoteType.GAME "u"] "p" 1 5 VoteType.GAME "u"
        (VoteLimit.fixed 3) 0
      = some ([],
          { success := true, message := "Vote removed",
            is_removal := true }) := by
  have h := (cast_vote_toggle_semantics [] "p" 1 5 VoteType.GAME "u"
      (VoteLimit.fixed 3) 0).2 (by decide)
    (by
      intro lim hl
      simp [calculate_effective_limit] at hl
      simp [user_vote_count]
      omega)
  exact ⟨h.1, by simpa using h.2.1⟩

/-- C6: after any successful non-removal cast under a finite effective
limit, the casting user's total vote count for the poll (GAME and CATEGORY
together) is at most that limit. -/
theorem cast_vote_count_le_limit (store : List PollVote) (poll_id : String)
    (user_id target_id : Int) (vote_type : VoteType) (user_name : String)
    (vote_limit : VoteLimit) (game_count lim : Int)
    (store2 : List PollVote) (res : VoteResult)
    (hlim : calculate_effective_limit vote_limit game_count = some lim)
    (hcast : cast_vote store poll_id user_id target_id vote_type user_name
        vote_limit game_count = some (store2, res))
    (hsucc : res.success = true) (hrem : res.is_removal = false) :
    (user_vote_count store2 poll_id user_id : Int) ≤ lim := by
  unfold cast_vote at hcast
  rcases hf : store.filter (vote_matches poll_id user_id vote_type target_id)
    with _ | ⟨v, rest⟩
  · rw [hf, hlim] at hcast
    by_cases hc : lim ≤ (user_vote_count store poll_id user_id : Int)
    · simp [hc] at hcast
      rw [← hcast.2] at hsucc
      simp at hsucc
    · simp [hc] at hcast
      rw [← hcast.1, user_vote_count_append_new]
      push_cast
      omega
  · cases rest with
    | nil =>
        rw [hf] at hcast
        simp at hcast
        rw [← hcast.2] at hrem
        simp at hrem
    | cons v2 rest2 =>
        rw [hf] at hcast
        simp at hcast

/-- Witness for C6: a first vote under a fixed limit of 3 leaves the user
with one vote, which is at most 3. -/
theorem cast_vote_count_le_limit_witness :
    (user_vote_count [new_vote "p" 1 5 VoteType.GAME "u"] "p" 1 : Int) ≤ 3 :=
  cast_vote_count_le_limit [] "p" 1 5 VoteType.GAME "u" (VoteLimit.fixed 3) 0
    3 [new_vote "p" 1 5 VoteType.GAME "u"]
    { success := true, message := insert_message VoteType.GAME 5,
      is_removal := false }
    (by decide) (by decide) (by decide) (by decide)

/-- C10: a fixed configured limit is returned unchanged whatever its value —
zero and negative values included; with a fixed limit of 0 every cast of a
not-yet-existing vote fails with the limit-reached message, while toggling
off an existing vote still succeeds because the existence check runs before
the limit check. -/
theorem fixed_limit_unvalidated :
    (∀ gc n : Int,
      calculate_effective_limit (VoteLimit.fixed n) gc = some n) ∧
    (∀ (store : List PollVote) (poll_id : String)
        (user_id target_id : Int) (vote_type : VoteType) (user_name : String)
        (gc : Int),
      store.filter (vote_matches poll_id user_id vote_type target_id) = [] →
      cast_vote store poll_id user_id target_id vote_type user_name
          (VoteLimit.fixed 0) gc
        = some (store,
            { success := false,
              message :=
                limit_message (user_vote_count store poll_id user_id) 0,
              is_removal := false })) ∧
    (∀ (store : List PollVote) (poll_id : String)
        (user_id target_id : Int) (vote_type : VoteType) (user_name : String)
        (gc : Int) (v : PollVote),
      store.filter (vote_matches poll_id user_id vote_type target_id) = [v] →
      cast_vote store poll_id user_id target_id vote_type user_name
          (VoteLimit.fixed 0) gc
        = some (store.erase v,
            { success := true, message := "Vote removed",
              is_removal := true })) := by
  refine ⟨?_, ?_, ?_⟩
  · intro gc n
    simp [calculate_effective_limit]
  · intro store poll_id user_id target_id vote_type user_name gc hno
    exact cast_vote_limit_eq store poll_id user_id target_id vote_type
      user_name (VoteLimit.fixed 0) gc 0 hno (by simp [calculate_effective_limit])
      (by positivity)
  · intro store poll_id user_id target_id vote_type user_name gc v hv
    exact cast_vote_found_eq store poll_id user_id target_id vote_type
      user_name (VoteLimit.fixed 0) gc v hv

/-- Witness for C10: with a fixed limit of 0, a fresh GAME vote on an empty
store is rejected, while toggling off an existing vote succeeds. -/
theorem fixed_limit_unvalidated_witness :
    calculate_effective_limit (VoteLimit.fixed (-5)) 7 = some (-5) ∧
    cast_vote [] "p" 1 5 VoteType.GAME "u" (VoteLimit.fixed 0) 0
      = some ([],
          { success := false, message := limit_message 0 0,
            is_removal := false }) ∧
    cast_vote [new_vote "p" 1 5 VoteType.GAME "u"] "p" 1 5 VoteType.GAME "u"
        (VoteLimit.fixed 0) 0
      = some ([],
          { success := true, message := "Vote removed",
            is_removal := true }) := by
  refine ⟨fixed_limit_unvalidated.1 7 (-5), ?_, ?_⟩
  · have h := fixed_limit_unvalidated.2.1 [] "p" 1 5 VoteType.GAME "u" 0
      (by decide)
    simpa using h
  · have h := fixed_limit_unvalidated.2.2 [new_vote "p" 1 5 VoteType.GAME "u"]
      "p" 1 5 VoteType.GAME "u" 0 (new_vote "p" 1 5 VoteType.GAME "u")
      (by decide)
    simpa using h

/-! ### Category resolution (claims C1, C5, C7) -/

/-- `List.lookup` over an append tries the left list first. -/
theorem lookup_append_or (lvl : Option Int) (l₁ l₂ : List (Option Int × Game)) :
    List.lookup lvl (l₁ ++ l₂)
      = match List.lookup lvl l₁ with
        | some g => some g
        | none => List.lookup lvl l₂ := by
  induction l₁ with
  | nil => simp [List.lookup]
  | cons p t ih =>
      obtain ⟨k, g⟩ := p
      cases h : lvl == k <;> simp [List.lookup, h, ih]

/-- `List.lookup` on a one-entry map. -/
theorem lookup_singleton (lvl k : Option Int) (g : Game) :
    List.lookup lvl [(k, g)]
      = if lvl == k then some g else none := by
  cases h : lvl == k <;> simp [List.lookup, h]

/-- A selection oracle that takes the head of the group; used below as a
concrete stand-in for `random.choice`. -/
def pick_head : Nat → List Game → Game :=
  fun _ l => l.headD { id := 0, name := "", complexity := 0 }

/-- `pick_head` behaves like `random.choice`: on a non-empty list it returns
a member. -/
theorem pick_head_mem (k : Nat) (l : List Game) (h : l ≠ []) :
    pick_head k l ∈ l := by
  cases l with
  | nil => exact absurd rfl h
  | cons a t => exact List.mem_cons_self a t

/-- Every game recorded in the `category_resolutions` map either was already
in the accumulator or belongs to the complexity group of its level
(provided the oracle picks members, as `random.choice` does). -/
theorem lookup_category_resolutions_mem (pick : Nat → List Game → Game)
    (games : List Game) (hpick : ∀ k l, l ≠ [] → pick k l ∈ l) :
    ∀ (votes : List PollVote) (acc : List (Option Int × Game)) (n : Nat)
      (lvl : Option Int) (g : Game),
      List.lookup lvl (category_resolutions pick votes games acc n) = some g →
      List.lookup lvl acc = some g ∨ g ∈ group_games_by_complexity games lvl
  | [], acc, n, lvl, g => by
      intro h
      simp [category_resolutions] at h
      exact Or.inl h
  | v :: vs, acc, n, lvl, g => by
      intro h
      cases htype : v.vote_type with
      | GAME =>
          rw [category_resolutions, htype] at h
          exact lookup_category_resolutions_mem pick games hpick vs acc n lvl g h
      | CATEGORY =>
          rw [category_resolutions, htype] at h
          cases hl : List.lookup v.category_level acc with
          | some g0 =>
              simp only [hl] at h
              exact lookup_category_resolutions_mem pick games hpick vs acc n
                lvl g h
          | none =>
              simp only [hl] at h
              cases hgroup :
                  (group_games_by_complexity games v.category_level).isEmpty with
              | true =>
                  simp only [hgroup, if_true] at h
                  exact lookup_category_resolutions_mem pick games hpick vs acc
                    n lvl g h
              | false =>
                  simp only [hgroup, Bool.false_eq_true, if_false] at h
                  have hrec := lookup_category_resolutions_mem pick games hpick
                    vs _ _ lvl g h
                  rcases hrec with hacc | hmem
                  · rw [lookup_append_or] at hacc
                    cases hacc2 : List.lookup lvl acc with
                    | some g1 =>
                        simp only [hacc2] at hacc
                        obtain rfl : g1 = g := by injection hacc
                        exact Or.inl rfl
                    | none =>
                        simp only [hacc2, lookup_singleton] at hacc
                        by_cases heq : lvl == v.category_level
                        · rw [if_pos heq] at hacc
                          have hlvl : lvl = v.category_level := eq_of_beq heq
                          have hne :
                              group_games_by_complexity games v.category_level
                                ≠ [] := by
                            intro hnil
                            rw [hnil] at hgroup
                            simp at hgroup
                          have := hpick n _ hne
                          right
                          rw [hlvl]
                          have hg : g = pick n
                              (group_games_by_complexity games v.category_level) := by
                            injection hacc.symm
                          rw [hg]
                          exact this
                        · rw [if_neg heq] at hacc
                          exact absurd hacc (by simp)
                  · exact Or.inr hmem

/-- A level is present in the `category_resolutions` map exactly when it was
already in the accumulator, or some CATEGORY vote in the list names it and
its complexity group is non-empty. -/
theorem lookup_category_resolutions_isSome (pick : Nat → List Game → Game)
    (games : List Game) :
    ∀ (votes : List PollVote) (acc : List (Option Int × Game)) (n : Nat)
      (lvl : Option Int),
      (List.lookup lvl (category_resolutions pick votes games acc n)).isSome
        = ((List.lookup lvl acc).isSome ||
           (votes.any (fun v =>
              v.vote_type == VoteType.CATEGORY && v.category_level == lvl) &&
            !(group_games_by_complexity games lvl).isEmpty))
  | [], acc, n, lvl => by
      simp [category_resolutions]
  | v :: vs, acc, n, lvl => by
      cases htype : v.vote_type with
      | GAME =>
          rw [category_resolutions, htype,
            lookup_category_resolutions_isSome pick games vs acc n lvl]
          have hb : (v.vote_type == VoteType.CATEGORY) = false := by
            rw [htype]
            decide
          simp [List.any_cons, hb]
      | CATEGORY =>
          rw [category_resolutions, htype]
          cases hl : List.lookup v.category_level acc with
          | some g0 =>
              simp only [hl]
              rw [lookup_category_resolutions_isSome pick games vs acc n lvl]
              by_cases heq : v.category_level = lvl
              · have hsome : (List.lookup lvl acc).isSome = true := by
                  rw [← heq, hl]
                  rfl
                simp [List.any_cons, hsome]
              · have hb : (v.category_level == lvl) = false :=
                  beq_eq_false_iff_ne.mpr heq
                simp [List.any_cons, hb]
          | none =>
              simp only [hl]
              cases hgroup :
                  (group_games_by_complexity games v.category_level).isEmpty with
              | true =>
                  simp only [hgroup, if_true]
                  rw [lookup_category_resolutions_isSome pick games vs acc n lvl]
                  by_cases heq : v.category_level = lvl
                  · have hg2 :
                        (group_games_by_complexity games lvl).isEmpty = true :=
                      heq ▸ hgroup
                    simp [List.any_cons, hg2]
                  · have hb : (v.category_level == lvl) = false :=
                      beq_eq_false_iff_ne.mpr heq
                    simp [List.any_cons, hb]
              | false =>
                  simp only [hgroup, Bool.false_eq_true, if_false]
                  rw [lookup_category_resolutions_isSome pick games vs _ (n + 1)
                    lvl]
                  rw [lookup_append_or]
                  cases hacc : List.lookup lvl acc with
                  | some g1 =>
                      simp [List.any_cons, hacc]
                  | none =>
                      simp only [hacc, lookup_singleton]
                      by_cases heq : v.category_level = lvl
                      · have hg2 :
                            (group_games_by_complexity games lvl).isEmpty
                              = false := heq ▸ hgroup
                        simp [List.any_cons, heq, hg2, htype, beq_iff_eq]
                      · have hne : ¬ (lvl == v.category_level) = true := by
                          simp
                          intro hcontr
                          exact heq hcontr.symm
                        have hb : (v.category_level == lvl) = false :=
                          beq_eq_false_iff_ne.mpr heq
                        simp [List.any_cons, hb]
                        intro hcontr
                        exact absurd hcontr.symm heq

/-- The length of a `filterMap` equals the length of the filter by any
predicate that agrees with definedness of the function on the list. -/
theorem length_filterMap_eq_length_filter {α β : Type} (f : α → Option β)
    (p : α → Bool) :
    ∀ l : List α, (∀ a ∈ l, (f a).isSome = p a) →
      (l.filterMap f).length = (l.filter p).length
  | [], _ => rfl
  | a :: l, h => by
      have ha := h a (List.mem_cons_self a l)
      have ih := length_filterMap_eq_length_filter f p l
        (fun x hx => h x (List.mem_cons_of_mem a hx))
      rw [List.filterMap_cons, List.filter_cons]
      cases hfa : f a with
      | none =>
          rw [hfa] at ha
          simp only [Option.isSome_none] at ha
          simp [← ha, ih]
      | some b =>
          rw [hfa] at ha
          simp only [Option.isSome_some] at ha
          simp [← ha, ih]

/-- Filtering by a disjunction of mutually exclusive predicates splits the
count. -/
theorem length_filter_or_disjoint {α : Type} (p q : α → Bool) :
    ∀ l : List α, (∀ a ∈ l, ¬(p a = true ∧ q a = true)) →
      (l.filter (fun a => p a || q a)).length
        = (l.filter p).length + (l.filter q).length
  | [], _ => rfl
  | a :: l, h => by
      have ha := h a (List.mem_cons_self a l)
      have ih := length_filter_or_disjoint p q l
        (fun x hx => h x (List.mem_cons_of_mem a hx))
      rw [List.filter_cons, List.filter_cons, List.filter_cons]
      cases hp : p a with
      | true =>
          have hq : q a = false := by
            cases hq2 : q a
            · rfl
            · exact absurd ⟨hp, hq2⟩ ha
          simp [hp, hq, ih]
          omega
      | false =>
          cases hq : q a <;> simp [hp, hq, ih]
          omega

/-- C7: CATEGORY votes whose level has no candidate games are silently
dropped and every other vote resolves to exactly one resolved vote, so the
output length is the number of GAME votes plus the number of CATEGORY votes
whose level has a non-empty complexity group.  The function is total: no
input raises. -/
theorem resolve_category_votes_length (pick : Nat → List Game → Game)
    (votes : List PollVote) (games : List Game) :
    (resolve_category_votes pick votes games).length
      = (votes.filter (fun v => v.vote_type == VoteType.GAME)).length
        + (votes.filter (fun v =>
            v.vote_type == VoteType.CATEGORY &&
            !(group_games_by_complexity games v.category_level).isEmpty)).length := by
  rw [resolve_category_votes]
  rw [length_filterMap_eq_length_filter
    (resolve_one (category_resolutions pick votes games [] 0))
    (fun v => (v.vote_type == VoteType.GAME) ||
      (v.vote_type == VoteType.CATEGORY &&
        !(group_games_by_complexity games v.category_level).isEmpty)) votes]
  · refine length_filter_or_disjoint _ _ votes ?_
    intro v _ hcontr
    obtain ⟨h1, h2⟩ := hcontr
    simp only [beq_iff_eq] at h1
    simp only [Bool.and_eq_true, beq_iff_eq] at h2
    rw [h1] at h2
    exact absurd h2.1 (by simp)
  · intro v hv
    cases htype : v.vote_type with
    | GAME =>
        simp [resolve_one, htype]
    | CATEGORY =>
        have hb : (v.vote_type == VoteType.GAME) = false := by
          rw [htype]
          decide
        simp only [resolve_one, htype, Option.isSome_map', hb, Bool.false_or,
          Bool.and_eq_true, beq_iff_eq, htype]
        rw [lookup_category_resolutions_isSome pick games votes [] 0
          v.category_level]
        have hany : votes.any (fun w =>
            w.vote_type == VoteType.CATEGORY &&
            w.category_level == v.category_level) = true := by
          rw [List.any_eq_true]
          exact ⟨v, hv, by simp [htype]⟩
        simp [hany, htype]

/-- Witness-free check helper: the resolutions map of the empty vote list is
empty. -/
theorem category_resolutions_nil (pick : Nat → List Game → Game)
    (games : List Game) (acc : List (Option Int × Game)) (n : Nat) :
    category_resolutions pick [] games acc n = acc := rfl

/-- C5: within one invocation of `resolve_category_votes`, any two CATEGORY
votes for the same complexity level resolve to the same game id (or are both
dropped); the chosen representative comes from that level's complexity
group; and the output is literally each vote flattened through the one
resolution map built at the start of the call. -/
theorem category_votes_share_resolution (pick : Nat → List Game → Game)
    (votes : List PollVote) (games : List Game) :
    (∀ v₁ v₂, v₁ ∈ votes → v₂ ∈ votes →
      v₁.vote_type = VoteType.CATEGORY → v₂.vote_type = VoteType.CATEGORY →
      v₁.category_level = v₂.category_level →
      Option.map (fun r => r.game_id)
          (resolve_one (category_resolutions pick votes games [] 0) v₁)
        = Option.map (fun r => r.game_id)
            (resolve_one (category_resolutions pick votes games [] 0) v₂)) ∧
    (∀ lvl g, (∀ k l, l ≠ [] → pick k l ∈ l) →
      List.lookup lvl (category_resolutions pick votes games [] 0) = some g →
      g ∈ group_games_by_complexity games lvl) ∧
    resolve_category_votes pick votes games
      = votes.filterMap
          (resolve_one (category_resolutions pick votes games [] 0)) := by
  refine ⟨?_, ?_, rfl⟩
  · intro v₁ v₂ _ _ ht₁ ht₂ hlvl
    simp only [resolve_one, ht₁, ht₂, hlvl, Option.map_map]
    rfl
  · intro lvl g hpick hlook
    rcases lookup_category_resolutions_mem pick games hpick votes [] 0 lvl g
        hlook with habs | hmem
    · exact absurd habs (by simp)
    · exact hmem

/-- Witness for C5: two users' CATEGORY votes on level 1 both resolve to game
1, drawn from level 1's group. -/
theorem category_votes_share_resolution_witness :
    Option.map (fun r => r.game_id)
        (resolve_one
          (category_resolutions pick_head
            [{ poll_id := "p", user_id := 1, vote_type := VoteType.CATEGORY,
               game_id := none, category_level := some 1, user_name := "a" },
             { poll_id := "p", user_id := 2, vote_type := VoteType.CATEGORY,
               game_id := none, category_level := some 1, user_name := "b" }]
            [{ id := 1, name := "A", complexity := 1 },
             { id := 2, name := "B", complexity := 1 }] [] 0)
          { poll_id := "p", user_id := 1, vote_type := VoteType.CATEGORY,
            game_id := none, category_level := some 1, user_name := "a" })
      = Option.map (fun r => r.game_id)
          (resolve_one
            (category_resolutions pick_head
              [{ poll_id := "p", user_id := 1, vote_type := VoteType.CATEGORY,
                 game_id := none, category_level := some 1, user_name := "a" },
               { poll_id := "p", user_id := 2, vote_type := VoteType.CATEGORY,
                 game_id := none, category_level := some 1, user_name := "b" }]
              [{ id := 1, name := "A", complexity := 1 },
               { id := 2, name := "B", complexity := 1 }] [] 0)
            { poll_id := "p", user_id := 2, vote_type := VoteType.CATEGORY,
              game_id := none, category_level := some 1, user_name := "b" }) ∧
    ({ id := 1, name := "A", complexity := 1 } : Game)
      ∈ group_games_by_complexity
          [{ id := 1, name := "A", complexity := 1 },
           { id := 2, name := "B", complexity := 1 }] (some 1) :=
  ⟨(category_votes_share_resolution pick_head
      [{ poll_id := "p", user_id := 1, vote_type := VoteType.CATEGORY,
         game_id := none, category_level := some 1, user_name := "a" },
       { poll_id := "p", user_id := 2, vote_type := VoteType.CATEGORY,
         game_id := none, category_level := some 1, user_name := "b" }]
      [{ id := 1, name := "A", complexity := 1 },
       { id := 2, name := "B", complexity := 1 }]).1
    _ _ (by simp) (by simp) rfl rfl rfl,
   (category_votes_share_resolution pick_head
      [{ poll_id := "p", user_id := 1, vote_type := VoteType.CATEGORY,
         game_id := none, category_level := some 1, user_name := "a" },
       { poll_id := "p", user_id := 2, vote_type := VoteType.CATEGORY,
         game_id := none, category_level := some 1, user_name := "b" }]
      [{ id := 1, name := "A", complexity := 1 },
       { id := 2, name := "B", complexity := 1 }]).2.1
    (some 1) { id := 1, name := "A", complexity := 1 } pick_head_mem
    (by decide)⟩

/-- Counterexample to C1 as stated: a GAME vote for game 99 passes through
`resolve_category_votes` unchanged even though no candidate game has id 99,
so the output references a game absent from the candidate list. -/
theorem resolved_vote_outside_candidates :
    ¬ (∀ r ∈ resolve_category_votes pick_head
          [{ poll_id := "p", user_id := 1, vote_type := VoteType.GAME,
             game_id := some 99, category_level := none, user_name := "u" }]
          [{ id := 1, name := "A", complexity := 1 }],
        ∃ g ∈ [({ id := 1, name := "A", complexity := 1 } : Game)],
          r.game_id = some g.id) := by
  decide

/-- C1 (amended): votes produced by category resolution always reference a
game from the candidate list (assuming the selection oracle returns members,
as `random.choice` does); GAME votes are passed through unchanged, so the
invariant holds only under the extra assumption that every GAME vote already
references a candidate game. -/
theorem resolved_votes_reference_candidates (pick : Nat → List Game → Game)
    (votes : List PollVote) (games : List Game)
    (hpick : ∀ k l, l ≠ [] → pick k l ∈ l)
    (hgame : ∀ v ∈ votes, v.vote_type = VoteType.GAME →
      ∃ g ∈ games, v.game_id = some g.id) :
    ∀ r ∈ resolve_category_votes pick votes games,
      ∃ g ∈ games, r.game_id = some g.id := by
  intro r hr
  rw [resolve_category_votes] at hr
  obtain ⟨v, hv, hres⟩ := List.mem_filterMap.mp hr
  cases htype : v.vote_type with
  | GAME =>
      rw [resolve_one, htype] at hres
      obtain ⟨g, hg, heq⟩ := hgame v hv htype
      injection hres with hres2
      rw [← hres2]
      exact ⟨g, hg, heq⟩
  | CATEGORY =>
      rw [resolve_one, htype] at hres
      cases hlook : List.lookup v.category_level
          (category_resolutions pick votes games [] 0) with
      | none =>
          rw [hlook] at hres
          simp at hres
      | some g0 =>
          rw [hlook] at hres
          simp only [Option.map_some'] at hres
          injection hres with hres2
          rcases lookup_category_resolutions_mem pick games hpick votes [] 0
              v.category_level g0 hlook with habs | hmem
          · exact absurd habs (by simp)
          · have hsub : g0 ∈ games := by
              cases hcl : v.category_level with
              | none =>
                  rw [hcl] at hmem
                  simp [group_games_by_complexity] at hmem
              | some l =>
                  rw [hcl] at hmem
                  simp only [group_games_by_complexity] at hmem
                  exact (List.mem_filter.mp hmem).1
            rw [← hres2]
            exact ⟨g0, hsub, rfl⟩

/-- Witness for the amended C1: the resolved vote produced by user 2's
CATEGORY vote on level 1 references candidate game 1. -/
theorem resolved_votes_reference_candidates_witness :
    ∃ g ∈ [({ id := 1, name := "A", complexity := 1 } : Game)],
      ({ game_id := some 1, user_id := 2 } : ResolvedVote).game_id
        = some g.id :=
  resolved_votes_reference_candidates pick_head
    [{ poll_id := "p", user_id := 1, vote_type := VoteType.GAME,
       game_id := some 1, category_level := none, user_name := "u" },
     { poll_id := "p", user_id := 2, vote_type := VoteType.CATEGORY,
       game_id := none, category_level := some 1, user_name := "w" }]
    [{ id := 1, name := "A", complexity := 1 }]
    pick_head_mem (by decide)
    { game_id := some 1, user_id := 2 } (by decide)

/-- `max_final_score` never returns `none` on a non-empty candidate list. -/
theorem max_final_score_ne_none (fs : Game → ℚ) (g : Game) (l : List Game) :
    max_final_score fs (g :: l) ≠ none := by
  rw [max_final_score]
  cases max_final_score fs l <;> simp

/-- `max_final_score` bounds every candidate's final score from above. -/
theorem max_final_score_le (fs : Game → ℚ) :
    ∀ (l : List Game) (m : ℚ), max_final_score fs l = some m →
      ∀ g ∈ l, fs g ≤ m
  | [], _, _, g, hg => absurd hg (List.not_mem_nil g)
  | a :: l, m, hm, g, hg => by
      rw [max_final_score] at hm
      cases hrec : max_final_score fs l with
      | none =>
          simp only [hrec] at hm
          injection hm with hm2
          cases l with
          | nil =>
              rcases List.mem_singleton.mp hg with rfl
              rw [← hm2]
          | cons b t => exact absurd hrec (max_final_score_ne_none fs b t)
      | some m0 =>
          simp only [hrec] at hm
          injection hm with hm2
          rcases List.mem_cons.mp hg with rfl | hgl
          · rw [← hm2]
            exact le_max_left _ _
          · calc fs g ≤ m0 := max_final_score_le fs l m0 hrec g hgl
              _ ≤ m := by
                  rw [← hm2]
                  exact le_max_right _ _

/-- `max_final_score` is attained by some candidate. -/
theorem max_final_score_attained (fs : Game → ℚ) :
    ∀ (l : List Game) (m : ℚ), max_final_score fs l = some m →
      ∃ g ∈ l, fs g = m
  | [], m, hm => by simp [max_final_score] at hm
  | a :: l, m, hm => by
      rw [max_final_score] at hm
      cases hrec : max_final_score fs l with
      | none =>
          simp only [hrec] at hm
          injection hm with hm2
          exact ⟨a, List.mem_cons_self a l, hm2⟩
      | some m0 =>
          simp only [hrec] at hm
          injection hm with hm2
          by_cases hle : fs a ≤ m0
          · obtain ⟨g, hgl, hfs⟩ := max_final_score_attained fs l m0 hrec
            refine ⟨g, List.mem_cons_of_mem a hgl, ?_⟩
            rw [hfs, ← hm2, max_eq_right hle]
          · refine ⟨a, List.mem_cons_self a l, ?_⟩
            rw [← hm2, max_eq_left (le_of_not_le hle)]

/-- The winners component of `close_poll`, expressed through
`close_poll_final_score`: the candidates achieving the maximum final score,
by name, in candidate order. -/
theorem close_poll_fst_eq (policy : ℚ → List Int → Nat → ℚ × String)
    (pick : Nat → List Game → Game) (votes_db : List PollVote)
    (sessions_db : List SessionRec) (collections_db : List CollectionRec)
    (poll_id : String) (chat_id : Int) (valid_games : List Game)
    (priority_ids : List Int) :
    (close_poll policy pick votes_db sessions_db collections_db poll_id
        chat_id valid_games priority_ids).1
      = match max_final_score
            (close_poll_final_score policy pick votes_db sessions_db
              collections_db poll_id chat_id valid_games priority_ids)
            valid_games with
        | none => []
        | some m =>
            (valid_games.filter (fun g =>
              decide (close_poll_final_score policy pick votes_db sessions_db
                collections_db poll_id chat_id valid_games priority_ids g
                  = m))).map (fun g => g.name) := rfl

/-- C2: whenever the candidates have a maximum final score m, the winner
list returned by `close_poll` contains the name of every candidate whose
final score is m and nothing else, m bounds every candidate's score, and m
is attained — so ties produce all tied games, never an arbitrary single
pick. -/
theorem close_poll_winners_are_max_scorers
    (policy : ℚ → List Int → Nat → ℚ × String)
    (pick : Nat → List Game → Game) (votes_db : List PollVote)
    (sessions_db : List SessionRec) (collections_db : List CollectionRec)
    (poll_id : String) (chat_id : Int) (valid_games : List Game)
    (priority_ids : List Int) (m : ℚ)
    (hmax : max_final_score
        (close_poll_final_score policy pick votes_db sessions_db
          collections_db poll_id chat_id valid_games priority_ids)
        valid_games = some m) :
    (∀ g ∈ valid_games,
      close_poll_final_score policy pick votes_db sessions_db collections_db
          poll_id chat_id valid_games priority_ids g = m →
      g.name ∈ (close_poll policy pick votes_db sessions_db collections_db
          poll_id chat_id valid_games priority_ids).1) ∧
    (∀ nm ∈ (close_poll policy pick votes_db sessions_db collections_db
        poll_id chat_id valid_games priority_ids).1,
      ∃ g ∈ valid_games, g.name = nm ∧
        close_poll_final_score policy pick votes_db sessions_db
          collections_db poll_id chat_id valid_games priority_ids g = m) ∧
    (∀ g ∈ valid_games,
      close_poll_final_score policy pick votes_db sessions_db collections_db
          poll_id chat_id valid_games priority_ids g ≤ m) ∧
    (∃ g ∈ valid_games,
      close_poll_final_score policy pick votes_db sessions_db collections_db
          poll_id chat_id valid_games priority_ids g = m) := by
  have hfst := close_poll_fst_eq policy pick votes_db sessions_db
    collections_db poll_id chat_id valid_games priority_ids
  rw [hmax] at hfst
  refine ⟨?_, ?_, ?_, ?_⟩
  · intro g hg hfs
    rw [hfst]
    exact List.mem_map.mpr
      ⟨g, List.mem_filter.mpr ⟨hg, decide_eq_true hfs⟩, rfl⟩
  · intro nm hnm
    rw [hfst] at hnm
    obtain ⟨g, hgf, hname⟩ := List.mem_map.mp hnm
    obtain ⟨hg, hdec⟩ := List.mem_filter.mp hgf
    exact ⟨g, hg, hname, of_decide_eq_true hdec⟩
  · exact max_final_score_le _ valid_games m hmax
  · exact max_final_score_attained _ valid_games m hmax

/-- Concrete poll for the C2 witness: candidates A and B tie at one vote
each, C gets none. -/
def cwVotes : List PollVote :=
  [{ poll_id := "p", user_id := 1, vote_type := VoteType.GAME,
     game_id := some 1, category_level := none, user_name := "u" },
   { poll_id := "p", user_id := 2, vote_type := VoteType.GAME,
     game_id := some 2, category_level := none, user_name := "w" }]

/-- Candidate list for the C2 witness. -/
def cwGames : List Game :=
  [{ id := 1, name := "A", complexity := 1 },
   { id := 2, name := "B", complexity := 1 },
   { id := 3, name := "C", complexity := 3 }]

/-- Identity bonus policy for the C2 witness (never consulted: the poll is
not weighted). -/
def cwPolicy : ℚ → List Int → Nat → ℚ × String := fun r _ _ => (r, "")

/-- Witness for C2: with A and B tied at the maximum score 1, both names are
returned as winners. -/
theorem close_poll_winners_are_max_scorers_witness :
    "A" ∈ (close_poll cwPolicy pick_head cwVotes [] [] "p" 0 cwGames []).1 ∧
    "B" ∈ (close_poll cwPolicy pick_head cwVotes [] [] "p" 0 cwGames []).1 := by
  have h := close_poll_winners_are_max_scorers cwPolicy pick_head cwVotes []
    [] "p" 0 cwGames [] 1 (by decide)
  exact ⟨h.1 { id := 1, name := "A", complexity := 1 } (by decide) (by decide),
    h.1 { id := 2, name := "B", complexity := 1 } (by decide) (by decide)⟩

end GameNight
